import Mathlib

/-!
Verification of the astrology calculation core of the vediq repository.

The TypeScript/JavaScript sources under src/lib/calculations are shallowly
embedded here.  JS double arithmetic is modelled by exact rationals; every
divergence proved below is of magnitude at least 1e-6, far above double
rounding error.  The trigonometric house computation (houses.ts) is modelled
over the real numbers, with the partial operations Math.asin, Math.acos and
division modelled as Option-valued functions (none plays the role of a NaN
result), and the uncaught JS exception raised inside calculateAscendant
modelled as an Option-valued result of the enclosing computation.  Record
fields holding JS numbers that are integral by construction are typed as
integers.
-/

namespace Vediq

/-! ### JS number primitives

Math.floor, Math.sign, Math.round and the remainder operator of JS, on exact
rationals.  The JS remainder operator truncates the quotient toward zero and
keeps the sign of the dividend.
-/

/-- Truncation toward zero, as JS division-based remainder uses. -/
def jsTrunc (x : ℚ) : ℤ := if 0 ≤ x then ⌊x⌋ else ⌈x⌉

/-- The JS remainder operator a % b (sign of the dividend). -/
def jsMod (a b : ℚ) : ℚ := a - b * (jsTrunc (a / b) : ℚ)

/-- Math.sign: -1, 0 or 1. -/
def jsSign (x : ℚ) : ℚ := if 0 < x then 1 else if x < 0 then -1 else 0

/-- Math.round: nearest integer, halves toward positive infinity. -/
def jsRound (x : ℚ) : ℚ := (⌊x + 1/2⌋ : ℚ)

/-! ### astronomy.ts: class AstronomicalCalculator (rational part) -/

namespace AstronomicalCalculator

/-- The J2000 constant declared at the top of astronomy.ts. -/
def J2000 : ℚ := 2451545.0

/-- calculateJulianDate from astronomy.ts.  The Date argument is replaced by
its calendar fields: y = getFullYear(), m = getMonth() + 1, d = getDate(),
h = getHours() + getMinutes()/60 + getSeconds()/3600. -/
def calculateJulianDate (y m d : ℤ) (h : ℚ) : ℚ :=
  let jd1 : ℚ := 367 * y - (⌊(7 * ((y : ℚ) + (⌊((m : ℚ) + 9) / 12⌋ : ℚ)) / 4 : ℚ)⌋ : ℚ)
  let jd2 : ℚ := jd1 + (⌊(275 * (m : ℚ) / 9 : ℚ)⌋ : ℚ) + d + 1721013.5 + h / 24
  jd2 - (0.5 * jsSign (100 * (y : ℚ) + (m : ℚ) - 190002.5) + 0.5)

end AstronomicalCalculator

/-! ### core.ts: class AstrologyCalculator -/

namespace AstrologyCalculator

/-- NAKSHATRA_SPAN constant of core.ts.  Note: the source holds the truncated
decimal 13.333333, not 360/27. -/
def NAKSHATRA_SPAN : ℚ := 13.333333

/-- PADA_SPAN constant of core.ts (truncated decimal, not 360/108). -/
def PADA_SPAN : ℚ := 3.333333

/-- SIGN_SPAN constant of core.ts. -/
def SIGN_SPAN : ℚ := 30

/-- normalizeAngle from core.ts: ((angle % 360) + 360) % 360 with JS %. -/
def normalizeAngle (angle : ℚ) : ℚ := jsMod (jsMod angle 360 + 360) 360

/-- Result record of decimalToDMS. -/
structure DMS where
  degrees : ℤ
  minutes : ℤ
  seconds : ℤ
  deriving DecidableEq, Repr

/-- decimalToDMS from core.ts. -/
def decimalToDMS (decimal : ℚ) : DMS :=
  let degrees := ⌊decimal⌋
  let minutesDecimal := (decimal - degrees) * 60
  let minutes := ⌊minutesDecimal⌋
  let seconds := ⌊(minutesDecimal - minutes) * 60⌋
  ⟨degrees, minutes, seconds⟩

/-- Result record of calculateNakshatra. -/
structure NakshatraPada where
  nakshatra : ℤ
  pada : ℤ
  deriving DecidableEq, Repr

/-- calculateNakshatra from core.ts. -/
def calculateNakshatra (longitude : ℚ) : NakshatraPada :=
  let normalizedLongitude := normalizeAngle longitude
  let nakshatraIndex := ⌊normalizedLongitude / NAKSHATRA_SPAN⌋
  let nakshatra := nakshatraIndex + 1
  let degreeInNakshatra := jsMod normalizedLongitude NAKSHATRA_SPAN
  let pada := ⌊degreeInNakshatra / PADA_SPAN⌋ + 1
  ⟨nakshatra, pada⟩

/-- calculateSign from core.ts. -/
def calculateSign (longitude : ℚ) : ℤ :=
  ⌊normalizeAngle longitude / SIGN_SPAN⌋ + 1

/-- calculateHouse from core.ts: house position relative to the ascendant
argument. -/
def calculateHouse (longitude ascendant : ℚ) : ℤ :=
  ⌊normalizeAngle (longitude - ascendant) / SIGN_SPAN⌋ + 1

/-- The exaltation lookup table of isExalted; a missing key is none
(undefined in JS). -/
def exaltations (planet : String) : Option ℤ :=
  if planet = "sun" then some 1
  else if planet = "moon" then some 2
  else if planet = "mars" then some 10
  else if planet = "mercury" then some 6
  else if planet = "jupiter" then some 4
  else if planet = "venus" then some 12
  else if planet = "saturn" then some 7
  else none

/-- isExalted from core.ts: exaltations[planet] === sign (a strict comparison
of an undefined lookup with a number is false). -/
def isExalted (planet : String) (sign : ℤ) : Prop :=
  exaltations planet = some sign

instance (planet : String) (sign : ℤ) : Decidable (isExalted planet sign) := by
  unfold isExalted; infer_instance

/-- The debilitation lookup table of isDebilitated. -/
def debilitations (planet : String) : Option ℤ :=
  if planet = "sun" then some 7
  else if planet = "moon" then some 8
  else if planet = "mars" then some 4
  else if planet = "mercury" then some 12
  else if planet = "jupiter" then some 10
  else if planet = "venus" then some 6
  else if planet = "saturn" then some 1
  else none

/-- isDebilitated from core.ts. -/
def isDebilitated (planet : String) (sign : ℤ) : Prop :=
  debilitations planet = some sign

instance (planet : String) (sign : ℤ) : Decidable (isDebilitated planet sign) := by
  unfold isDebilitated; infer_instance

end AstrologyCalculator

/-! ### types/astrology.ts: PlanetaryPosition and BirthChart -/

/-- PlanetaryPosition from types/astrology.ts.  Fields that are integral by
construction everywhere in the repository (house, sign, nakshatra,
nakshatraPada, degree, minutes) are typed as integers. -/
structure PlanetaryPosition where
  planet : String
  longitude : ℚ
  latitude : ℚ
  speed : ℚ
  house : ℤ
  sign : ℤ
  nakshatra : ℤ
  nakshatraPada : ℤ
  degree : ℤ
  minutes : ℤ
  isRetrograde : Bool
  deriving DecidableEq, Repr

/-- BirthChart from types/astrology.ts, reduced to the fields transit.js
reads.  The datetime string is replaced by the millisecond timestamp that
new Date(datetime).getTime() yields; the planets record is the ordered list
of its entries, as Object.entries iterates them. -/
structure BirthChart where
  datetime : ℚ
  planets : List (String × PlanetaryPosition)
  deriving DecidableEq, Repr

/-! ### transit.js: class TransitCalculator -/

namespace TransitCalculator

/-- The DAILY_MOTION table of transit.js; a planet name outside the table is
none (undefined in JS). -/
def DAILY_MOTION (planet : String) : Option ℚ :=
  if planet = "sun" then some 0.9856
  else if planet = "moon" then some 13.1763
  else if planet = "mars" then some 0.5240
  else if planet = "mercury" then some 1.3833
  else if planet = "venus" then some 1.2097
  else if planet = "jupiter" then some 0.0831
  else if planet = "saturn" then some 0.0334
  else if planet = "rahu" then some (-0.0529)
  else if planet = "ketu" then some (-0.0529)
  else none

/-- daysBetween from transit.js; dates are millisecond timestamps.  Note the
source takes Math.round of the absolute difference in days. -/
def daysBetween (date1 date2 : ℚ) : ℚ :=
  let oneDay : ℚ := 24 * 60 * 60 * 1000
  jsRound |((date2 - date1) / oneDay)|

/-- calculateTransitPosition from transit.js.  When the planet name is not a
DAILY_MOTION key the JS code multiplies undefined and poisons the result
with NaN; that case is modelled as none. -/
def calculateTransitPosition (birthPosition : PlanetaryPosition)
    (transitDate birthDate : ℚ) : Option PlanetaryPosition :=
  let daysDiff := daysBetween birthDate transitDate
  (DAILY_MOTION birthPosition.planet).map fun motion =>
    let newLongitude0 := birthPosition.longitude + motion * daysDiff
    let newLongitude := jsMod (jsMod newLongitude0 360 + 360) 360
    let np := AstrologyCalculator.calculateNakshatra newLongitude
    let sign := AstrologyCalculator.calculateSign newLongitude
    let dms := AstrologyCalculator.decimalToDMS (jsMod newLongitude 30)
    { birthPosition with
      longitude := newLongitude
      sign := sign
      nakshatra := np.nakshatra
      nakshatraPada := np.pada
      degree := dms.degrees
      minutes := dms.minutes
      house := AstrologyCalculator.calculateHouse newLongitude birthPosition.longitude }

/-- calculateAllTransits from transit.js: every entry of the planets record
is projected except the one keyed ascendant, which is passed through
unchanged. -/
def calculateAllTransits (birthChart : BirthChart) (transitDate : ℚ) :
    List (String × Option PlanetaryPosition) :=
  birthChart.planets.map fun e =>
    if e.1 ≠ "ascendant" then
      (e.1, calculateTransitPosition e.2 transitDate birthChart.datetime)
    else
      (e.1, some e.2)

/-- The names and canonical angles searched by calculateAspect, in order. -/
inductive AspectType where
  | conjunction
  | sextile
  | square
  | trine
  | opposition
  deriving DecidableEq, Repr

/-- The record calculateAspect returns on success. -/
structure AspectResult where
  type : AspectType
  orb : ℚ
  deriving DecidableEq, Repr

/-- calculateAspect from transit.js: the first canonical angle among
0, 60, 90, 120, 180 whose orb from |lon1 - lon2| % 360 is at most maxOrb. -/
def calculateAspect (pos1 pos2 : PlanetaryPosition) (maxOrb : ℚ) :
    Option AspectResult :=
  let angle := jsMod |pos1.longitude - pos2.longitude| 360
  if |angle - 0| ≤ maxOrb then some ⟨AspectType.conjunction, |angle - 0|⟩
  else if |angle - 60| ≤ maxOrb then some ⟨AspectType.sextile, |angle - 60|⟩
  else if |angle - 90| ≤ maxOrb then some ⟨AspectType.square, |angle - 90|⟩
  else if |angle - 120| ≤ maxOrb then some ⟨AspectType.trine, |angle - 120|⟩
  else if |angle - 180| ≤ maxOrb then some ⟨AspectType.opposition, |angle - 180|⟩
  else none

end TransitCalculator

/-- A concrete position fixture: the given planet name and longitude, all
other fields fixed innocuous values. -/
def testPos (name : String) (lon : ℚ) : PlanetaryPosition :=
  ⟨name, lon, 0, 0, 1, 1, 1, 1, 0, 0, false⟩

/-- A concrete two-body chart fixture: natal ascendant at 10 degrees and the
Sun at 100 degrees, birth timestamp 0. -/
def chartC3 : BirthChart :=
  ⟨0, [("ascendant", testPos "ascendant" 10), ("sun", testPos "sun" 100)]⟩

/-! ### dasha.ts: class DashaCalculator

The startDate/endDate string fields of DashaPeriod are produced by the
external date-fns library, which is not part of this repository; they are
omitted here.  The claims concern the years fields only.
-/

namespace DashaCalculator

/-- The DASHA_YEARS table of dasha.ts.  The table is only ever consulted at
members of NAKSHATRA_LORDS, all of which are keys; the catch-all 0 branch is
unreachable from the call sites in the module. -/
def DASHA_YEARS (planet : String) : ℚ :=
  if planet = "sun" then 6
  else if planet = "moon" then 10
  else if planet = "mars" then 7
  else if planet = "rahu" then 18
  else if planet = "jupiter" then 16
  else if planet = "saturn" then 19
  else if planet = "mercury" then 17
  else if planet = "ketu" then 7
  else if planet = "venus" then 20
  else 0

/-- The NAKSHATRA_LORDS table of dasha.ts. -/
def NAKSHATRA_LORDS : List String :=
  ["ketu", "venus", "sun", "moon", "mars", "rahu", "jupiter", "saturn", "mercury"]

/-- getNakshatraLord from dasha.ts.  For the in-contract inputs 1 to 27 the
truncating JS remainder gives an index in 0..8; out-of-contract inputs give
undefined in JS and a junk string here. -/
def getNakshatraLord (nakshatra : ℤ) : String :=
  NAKSHATRA_LORDS.getD ((nakshatra - 1).tmod 9).toNat ""

/-- calculateDashaBalance from dasha.ts; the span here is the exact
13 + 1/3 degrees. -/
def calculateDashaBalance (nakshatra : ℤ) (degrees : ℚ) : ℚ :=
  let lord := getNakshatraLord nakshatra
  let totalYears := DASHA_YEARS lord
  let nakshatraSpan : ℚ := 13 + 1/3
  let balanceDegrees := nakshatraSpan - degrees
  (balanceDegrees / nakshatraSpan) * totalYears

/-- DashaPeriod from types/astrology.ts without the date-fns-formatted
startDate/endDate strings. -/
inductive DashaPeriodV where
  | mk (planet : String) (years : ℚ) (subPeriods : List DashaPeriodV)

/-- The planet field of a period. -/
def DashaPeriodV.planet : DashaPeriodV → String
  | .mk p _ _ => p

/-- The years field of a period. -/
def DashaPeriodV.years : DashaPeriodV → ℚ
  | .mk _ y _ => y

/-- The subPeriods field of a period. -/
def DashaPeriodV.subPeriods : DashaPeriodV → List DashaPeriodV
  | .mk _ _ s => s

/-- calculateAntarDasha from dasha.ts: nine sub-periods cycling from the
main lord, each of duration years * DASHA_YEARS[lord] / 120.  List.indexOf
of a member agrees with JS indexOf; the two differ only for strings outside
NAKSHATRA_LORDS, which no call site produces. -/
def calculateAntarDasha (mainLord : String) (years : ℚ) : List DashaPeriodV :=
  let startIndex := NAKSHATRA_LORDS.indexOf mainLord
  (List.range 9).map fun i =>
    let lordIndex := (startIndex + i) % 9
    let lord := NAKSHATRA_LORDS.getD lordIndex ""
    let subPeriodYears := (years * DASHA_YEARS lord) / 120
    DashaPeriodV.mk lord subPeriodYears []

/-- calculateDashaPeriods from dasha.ts: nine top-level periods cycling from
the birth lord; the first carries the balance, the rest their full
allotment.  The foundStart flag of the source is equivalent to testing
whether the loop index is zero. -/
def calculateDashaPeriods (nakshatra : ℤ) (degrees : ℚ) : List DashaPeriodV :=
  let balance := calculateDashaBalance nakshatra degrees
  let startLord := getNakshatraLord nakshatra
  (List.range 9).map fun i =>
    let lordIndex := (NAKSHATRA_LORDS.indexOf startLord + i) % 9
    let lord := NAKSHATRA_LORDS.getD lordIndex ""
    let years := if i = 0 then balance else DASHA_YEARS lord
    DashaPeriodV.mk lord years (calculateAntarDasha lord years)

end DashaCalculator

/-! ### houses.ts: class HouseCalculator, and the obliquity polynomial of
astronomy.ts that it calls

This part of the code is transcendental, so it is embedded over the real
numbers.  The partial operations are Option-valued: Math.asin and Math.acos
return NaN outside the closed interval from -1 to 1, and a division whose
denominator is zero yields an infinity or NaN that poisons the following
Math.acos into NaN; all of these are modelled as none.  Math.atan2 and
Math.tan are total on finite doubles and are modelled by total functions.
-/

noncomputable section

namespace AstronomicalCalculator

/-- calculateObliquityOfEcliptic from astronomy.ts (real-valued, as houses.ts
consumes it). -/
def calculateObliquityOfEcliptic (jd : ℝ) : ℝ :=
  let T := (jd - 2451545.0) / 36525
  23.43929111 - (46.8150 / 3600) * T - (0.00059 / 3600) * T * T
    + (0.001813 / 3600) * T * T * T

end AstronomicalCalculator

namespace HouseCalculator

/-- toRadians from houses.ts. -/
def toRadians (degrees : ℝ) : ℝ := degrees * Real.pi / 180

/-- toDegrees from houses.ts. -/
def toDegrees (radians : ℝ) : ℝ := radians * 180 / Real.pi

/-- normalizeAngle from houses.ts: angle - 360 * Math.floor(angle / 360). -/
def normalizeAngle (angle : ℝ) : ℝ := angle - 360 * (⌊angle / 360⌋ : ℝ)

/-- Math.atan2 y x, via the argument of the complex number x + y i; both have
range from -pi exclusive to pi inclusive. -/
def jsAtan2 (y x : ℝ) : ℝ := Complex.arg ⟨x, y⟩

/-- Math.asin: NaN (none) outside the closed interval from -1 to 1. -/
def jsAsin (x : ℝ) : Option ℝ :=
  if -1 ≤ x ∧ x ≤ 1 then some (Real.arcsin x) else none

/-- Math.acos: NaN (none) outside the closed interval from -1 to 1. -/
def jsAcos (x : ℝ) : Option ℝ :=
  if -1 ≤ x ∧ x ≤ 1 then some (Real.arccos x) else none

/-- A JS division feeding Math.acos: a zero denominator yields an infinity or
NaN, which turns the subsequent Math.acos into NaN; modelled as none. -/
def jsDiv (x y : ℝ) : Option ℝ := if y = 0 then none else some (x / y)

/-- calculateRAMC from houses.ts. -/
def calculateRAMC (jd longitude : ℝ) : ℝ :=
  let T := (jd - 2451545.0) / 36525
  let GMST := 280.46061837 + 360.98564736629 * (jd - 2451545.0)
    + 0.000387933 * T * T - T * T * T / 38710000
  normalizeAngle (GMST + longitude)

/-- calculateMidheaven from houses.ts. -/
def calculateMidheaven (RAMC obliquity : ℝ) : ℝ :=
  toDegrees (jsAtan2 (Real.tan (toRadians RAMC)) (Real.cos (toRadians obliquity)))

/-- calculateAscendant from houses.ts.  The body declares the constants
sinRA, cosRA, tanObl, sinLat and cosLat, but the expression it then builds
for x reads the identifiers cosObl, tanLat and sinObl, none of which is
declared anywhere in the file: as TypeScript the file does not compile, and
run as JS every call throws a ReferenceError at that line, before any value
is returned.  The unconditional throw is modelled as none; the declared
constants are kept for traceability (they are computed, then discarded by
the crash). -/
def calculateAscendant (RAMC obliquity latitude : ℝ) : Option ℝ :=
  let sinRA := Real.sin (toRadians RAMC)
  let cosRA := Real.cos (toRadians RAMC)
  let tanObl := Real.tan (toRadians obliquity)
  let sinLat := Real.sin (toRadians latitude)
  let cosLat := Real.cos (toRadians latitude)
  none

/-- calculateIntermediate from houses.ts, restructured to return the value
written into houses[houseNum - 1]; none is a NaN result. -/
def calculateIntermediate (RAMC obliquity latitude : ℝ) (fraction : ℝ) :
    Option ℝ :=
  let ra := RAMC + fraction * 90
  (jsAsin (Real.sin (toRadians obliquity) * Real.sin (toRadians ra))).bind
    fun decR =>
  let dec := toDegrees decR
  let k := 90 * fraction
  (jsAsin (Real.sin (toRadians latitude) * Real.sin (toRadians dec)
      + Real.cos (toRadians latitude) * Real.cos (toRadians dec)
        * Real.cos (toRadians k))).bind fun hR =>
  let h := toDegrees hR
  (jsDiv (Real.sin (toRadians h) * Real.sin (toRadians latitude)
      - Real.sin (toRadians dec))
    (Real.cos (toRadians h) * Real.cos (toRadians latitude))).bind fun q =>
  (jsAcos q).map fun aR =>
  let a := toDegrees aR
  normalizeAngle (RAMC + if ra < 180 then a else 360 - a)

/-- calculatePlacidusHouses from houses.ts.  The JS array new Array(12) is a
12-slot list of none (empty slots are undefined); each write stores the
computed value, none when it is NaN.  The call of calculateAscendant throws
(see its doc comment), and nothing catches the exception, so the outer
result is Option-valued: none is the call aborting with that ReferenceError
and never returning an array.  In the continuation after the ascendant —
which no execution reaches — the writes happen in source order, so the
intermediate cusp for house 1 would overwrite the ascendant at index 0 and
the one for house 7 the descendant at index 6, and indices 2, 4, 5 and 8
are never written. -/
def calculatePlacidusHouses (jd latitude longitude : ℝ) :
    Option (List (Option ℝ)) :=
  let RAMC := calculateRAMC jd longitude
  let obliquity := AstronomicalCalculator.calculateObliquityOfEcliptic jd
  let mc := calculateMidheaven RAMC obliquity
  let houses0 : List (Option ℝ) := List.replicate 12 none
  let houses1 := houses0.set 9 (some mc)
  let houses2 := houses1.set 3 (some (normalizeAngle (mc + 180)))
  (calculateAscendant RAMC obliquity latitude).map fun ascendant =>
    let houses3 := houses2.set 0 (some ascendant)
    let houses4 := houses3.set 6 (some (normalizeAngle (ascendant + 180)))
    let houses5 := houses4.set 10 (calculateIntermediate RAMC obliquity latitude (1/3))
    let houses6 := houses5.set 11 (calculateIntermediate RAMC obliquity latitude (2/3))
    let houses7 := houses6.set 1 (calculateIntermediate RAMC obliquity latitude (1/3))
    let houses8 := houses7.set 0 (calculateIntermediate RAMC obliquity latitude (2/3))
    let houses9 := houses8.set 7 (calculateIntermediate RAMC obliquity latitude (1/3))
    houses9.set 6 (calculateIntermediate RAMC obliquity latitude (2/3))

end HouseCalculator

end

/-! ## Helper lemmas -/

/-- jsMod of a nonnegative dividend by a positive divisor lies in the
half-open interval from 0 to the divisor. -/
theorem jsMod_nonneg_lt {a b : ℚ} (ha : 0 ≤ a) (hb : 0 < b) :
    0 ≤ jsMod a b ∧ jsMod a b < b := by
  have hq : 0 ≤ a / b := div_nonneg ha hb.le
  have ht : jsTrunc (a / b) = ⌊a / b⌋ := by simp [jsTrunc, hq]
  have h1 : ((⌊a / b⌋ : ℤ) : ℚ) ≤ a / b := Int.floor_le _
  have h2 : a / b < (⌊a / b⌋ : ℚ) + 1 := Int.lt_floor_add_one _
  have hba : b * (a / b) = a := by field_simp
  unfold jsMod
  rw [ht]
  constructor
  · nlinarith [mul_le_mul_of_nonneg_left h1 hb.le]
  · nlinarith [mul_lt_mul_of_pos_left h2 hb]

/-- jsMod always exceeds the negation of a positive divisor. -/
theorem neg_lt_jsMod {a b : ℚ} (hb : 0 < b) : -b < jsMod a b := by
  unfold jsMod jsTrunc
  have hba : b * (a / b) = a := by field_simp
  split_ifs with h
  · have h1 : ((⌊a / b⌋ : ℤ) : ℚ) ≤ a / b := Int.floor_le _
    nlinarith [mul_le_mul_of_nonneg_left h1 hb.le]
  · have h2 : ((⌈a / b⌉ : ℤ) : ℚ) < a / b + 1 := Int.ceil_lt_add_one _
    nlinarith [mul_lt_mul_of_pos_left h2 hb]

/-- jsMod is the identity on arguments already inside the target range. -/
theorem jsMod_eq_self {a b : ℚ} (h0 : 0 ≤ a) (hab : a < b) : jsMod a b = a := by
  have hb : 0 < b := lt_of_le_of_lt h0 hab
  have hq : 0 ≤ a / b := div_nonneg h0 hb.le
  have hq1 : a / b < 1 := (div_lt_one hb).mpr hab
  have hfl : ⌊a / b⌋ = 0 := Int.floor_eq_zero_iff.mpr ⟨hq, hq1⟩
  unfold jsMod jsTrunc
  rw [if_pos hq, hfl]
  simp

/-- The normalizeAngle of core.ts always lands in the half-open interval
from 0 to 360. -/
theorem normalizeAngle_bounds (x : ℚ) :
    0 ≤ AstrologyCalculator.normalizeAngle x ∧
      AstrologyCalculator.normalizeAngle x < 360 := by
  have h := neg_lt_jsMod (a := x) (b := 360) (by norm_num)
  exact jsMod_nonneg_lt (by linarith) (by norm_num)

/-- normalizeAngle is the identity on the target range. -/
theorem normalizeAngle_eq_self {x : ℚ} (h0 : 0 ≤ x) (h1 : x < 360) :
    AstrologyCalculator.normalizeAngle x = x := by
  have h2 : jsMod (x + 360) 360 = x := by
    unfold jsMod jsTrunc
    rw [if_pos (div_nonneg (by linarith) (by norm_num))]
    have hfl : ⌊(x + 360) / 360⌋ = 1 := by
      rw [Int.floor_eq_iff]
      constructor
      · rw [le_div_iff₀ (by norm_num)]
        push_cast
        linarith
      · rw [div_lt_iff₀ (by norm_num)]
        push_cast
        linarith
    rw [hfl]
    push_cast
    ring
  unfold AstrologyCalculator.normalizeAngle
  rw [jsMod_eq_self h0 h1, h2]

/-- normalizeAngle shifts arguments in the interval from -360 to 0 up by a
full turn. -/
theorem normalizeAngle_of_neg {x : ℚ} (h0 : -360 < x) (h1 : x < 0) :
    AstrologyCalculator.normalizeAngle x = x + 360 := by
  have ha : jsMod x 360 = x := by
    unfold jsMod jsTrunc
    rw [if_neg (by
      rw [not_le]
      exact div_neg_of_neg_of_pos h1 (by norm_num))]
    have hcl : ⌈x / 360⌉ = 0 := by
      rw [Int.ceil_eq_zero_iff, Set.mem_Ioc]
      constructor
      · rw [lt_div_iff₀ (by norm_num)]
        linarith
      · rw [div_nonpos_iff]
        right
        exact ⟨h1.le, by norm_num⟩
    rw [hcl]
    push_cast
    ring
  unfold AstrologyCalculator.normalizeAngle
  rw [ha]
  exact jsMod_eq_self (by linarith) (by linarith)

/-- calculateHouse always returns a house index between 1 and 12. -/
theorem calculateHouse_range (longitude ascendant : ℚ) :
    1 ≤ AstrologyCalculator.calculateHouse longitude ascendant ∧
      AstrologyCalculator.calculateHouse longitude ascendant ≤ 12 := by
  obtain ⟨h0, h1⟩ := normalizeAngle_bounds (longitude - ascendant)
  unfold AstrologyCalculator.calculateHouse AstrologyCalculator.SIGN_SPAN
  have hfl0 : 0 ≤ ⌊AstrologyCalculator.normalizeAngle (longitude - ascendant) / 30⌋ :=
    Int.floor_nonneg.mpr (div_nonneg h0 (by norm_num))
  have hfl1 : ⌊AstrologyCalculator.normalizeAngle (longitude - ascendant) / 30⌋ < 12 := by
    apply Int.floor_lt.mpr
    push_cast
    linarith
  omega

/-! ## Claim C1 -/

/-- C1: the spec claims calculateJulianDate(2000-01-01, 12h) equals the
J2000.0 constant 2451545.0 exactly.  The code returns 2451544.0 instead: the
sign-correction term of the Julian Day formula is subtracted with the wrong
sign, shifting every post-1900 date down by one day, and contradicting the
J2000 constant declared in the same class. -/
theorem C1_julianDate_j2000_value :
    AstronomicalCalculator.calculateJulianDate 2000 1 1 12 = 2451544 ∧
    AstronomicalCalculator.J2000 = 2451545 ∧
    AstronomicalCalculator.calculateJulianDate 2000 1 1 12 ≠
      AstronomicalCalculator.J2000 := by
  unfold AstronomicalCalculator.calculateJulianDate AstronomicalCalculator.J2000 jsSign
  norm_num

/-! ## Claim C4 -/

/-- C4: the spec claims nakshatra is in 1..27 and pada in 1..4 for every
longitude, with boundaries at exact multiples of 360/27.  The truncated span
constant 13.333333 makes 27 nakshatras cover only 359.999991 degrees, so a
longitude of 359.9999955 degrees yields nakshatra 28, and 13.3333325 degrees
yields pada 5.  (The sign part of the claim does hold; see the range lemmas
above.) -/
theorem C4_nakshatra_out_of_range :
    AstrologyCalculator.calculateNakshatra (359.9999955 : ℚ) =
      ⟨28, 1⟩ ∧
    AstrologyCalculator.calculateNakshatra (13.3333325 : ℚ) =
      ⟨1, 5⟩ ∧
    27 * AstrologyCalculator.NAKSHATRA_SPAN < 360 ∧
    AstrologyCalculator.NAKSHATRA_SPAN ≠ 360 / 27 := by
  unfold AstrologyCalculator.calculateNakshatra AstrologyCalculator.normalizeAngle
    AstrologyCalculator.NAKSHATRA_SPAN AstrologyCalculator.PADA_SPAN jsMod jsTrunc
  norm_num

/-! ## Claim C7 -/

/-- C7 counterexample: the claim says the house equals the whole-sign offset
formula ((sign(longitude) - sign(ascendant)) mod 12) + 1 and depends only on
the occupied signs.  For longitude 31 and ascendant 29 the code returns
house 1 while the sign-offset formula gives 2. -/
theorem C7_cex_house_not_sign_offset :
    AstrologyCalculator.calculateHouse 31 29 = 1 ∧
    (AstrologyCalculator.calculateSign 31 - AstrologyCalculator.calculateSign 29) % 12
        + 1 = 2 ∧
    AstrologyCalculator.calculateHouse 31 29 ≠
      (AstrologyCalculator.calculateSign 31 - AstrologyCalculator.calculateSign 29) % 12
        + 1 := by
  unfold AstrologyCalculator.calculateHouse AstrologyCalculator.calculateSign
    AstrologyCalculator.normalizeAngle AstrologyCalculator.SIGN_SPAN jsMod jsTrunc
  norm_num

/-- C7 (amended): the house index is the degree-based offset
floor(normalize(longitude - ascendant) / 30) + 1, a function of the degree
offset between the raw longitudes (not of the occupied signs alone), and it
always lies between 1 and 12. -/
theorem C7_house_degree_offset (longitude ascendant : ℚ) :
    AstrologyCalculator.calculateHouse longitude ascendant =
      ⌊AstrologyCalculator.normalizeAngle (longitude - ascendant) / 30⌋ + 1 ∧
    1 ≤ AstrologyCalculator.calculateHouse longitude ascendant ∧
    AstrologyCalculator.calculateHouse longitude ascendant ≤ 12 :=
  ⟨rfl, (calculateHouse_range longitude ascendant).1,
    (calculateHouse_range longitude ascendant).2⟩

/-! ## Claim C10 -/

/-- C10: no planet is simultaneously exalted and debilitated in the same
sign, and for every planet in both tables the debilitation sign is exactly
opposite the exaltation sign (six signs apart modulo 12). -/
theorem C10_dignity_tables (p : String) (s e d : ℤ) :
    ¬(AstrologyCalculator.isExalted p s ∧ AstrologyCalculator.isDebilitated p s) ∧
    (AstrologyCalculator.exaltations p = some e →
      AstrologyCalculator.debilitations p = some d → (d + 12 - e) % 12 = 6) := by
  constructor
  · rintro ⟨h1, h2⟩
    unfold AstrologyCalculator.isExalted AstrologyCalculator.exaltations at h1
    unfold AstrologyCalculator.isDebilitated AstrologyCalculator.debilitations at h2
    split_ifs at h1 h2
    all_goals simp only [Option.some.injEq] at h1 h2
    all_goals omega
  · intro he hd
    unfold AstrologyCalculator.exaltations at he
    unfold AstrologyCalculator.debilitations at hd
    split_ifs at he hd
    all_goals simp only [Option.some.injEq] at he hd
    all_goals omega

/-! ## Claim C2 -/

/-- C2 counterexample: longitudes 0 and 300 are both in the valid range and
their minimal angular separation is exactly the canonical 60 degrees
(sextile, orb 0 within the default maximum orb 6), yet calculateAspect
returns none, because the code tests the raw absolute difference 300 rather
than the minimal separation. -/
theorem C2_cex_min_separation_missed :
    TransitCalculator.calculateAspect (testPos "sun" 0) (testPos "moon" 300) 6 = none ∧
    min |(0 : ℚ) - 300| (360 - |(0 : ℚ) - 300|) = 60 := by
  constructor
  · unfold TransitCalculator.calculateAspect testPos jsMod jsTrunc
    norm_num
  · norm_num

/-- C2 (amended): for longitudes in the valid range, calculateAspect returns
an aspect exactly when the raw absolute difference of the two longitudes
(not the minimal angular separation) is within maxOrb of one of the five
canonical angles 0, 60, 90, 120 and 180, and the returned orb is the
distance of that raw difference from the matched canonical angle. -/
theorem C2_aspect_raw_difference (pos1 pos2 : PlanetaryPosition) (maxOrb : ℚ)
    (h1a : 0 ≤ pos1.longitude) (h1b : pos1.longitude < 360)
    (h2a : 0 ≤ pos2.longitude) (h2b : pos2.longitude < 360) :
    ((TransitCalculator.calculateAspect pos1 pos2 maxOrb).isSome = true ↔
      ∃ c ∈ ([0, 60, 90, 120, 180] : List ℚ),
        |(|pos1.longitude - pos2.longitude| - c)| ≤ maxOrb) ∧
    (∀ r, TransitCalculator.calculateAspect pos1 pos2 maxOrb = some r →
      ∃ c ∈ ([0, 60, 90, 120, 180] : List ℚ),
        r.orb = |(|pos1.longitude - pos2.longitude| - c)| ∧ r.orb ≤ maxOrb) := by
  have hd0 : (0 : ℚ) ≤ |pos1.longitude - pos2.longitude| := abs_nonneg _
  have hdlt : |pos1.longitude - pos2.longitude| < 360 := by
    rw [abs_sub_lt_iff]
    constructor <;> linarith
  simp only [TransitCalculator.calculateAspect]
  rw [jsMod_eq_self hd0 hdlt]
  set d := |pos1.longitude - pos2.longitude| with hd
  split_ifs with hc1 hc2 hc3 hc4 hc5
  · refine ⟨iff_of_true rfl ⟨0, by simp, hc1⟩, ?_⟩
    rintro r hr
    injection hr with hr
    subst hr
    exact ⟨0, by simp, rfl, hc1⟩
  · refine ⟨iff_of_true rfl ⟨60, by simp, hc2⟩, ?_⟩
    rintro r hr
    injection hr with hr
    subst hr
    exact ⟨60, by simp, rfl, hc2⟩
  · refine ⟨iff_of_true rfl ⟨90, by simp, hc3⟩, ?_⟩
    rintro r hr
    injection hr with hr
    subst hr
    exact ⟨90, by simp, rfl, hc3⟩
  · refine ⟨iff_of_true rfl ⟨120, by simp, hc4⟩, ?_⟩
    rintro r hr
    injection hr with hr
    subst hr
    exact ⟨120, by simp, rfl, hc4⟩
  · refine ⟨iff_of_true rfl ⟨180, by simp, hc5⟩, ?_⟩
    rintro r hr
    injection hr with hr
    subst hr
    exact ⟨180, by simp, rfl, hc5⟩
  · constructor
    · constructor
      · intro h
        exact absurd h (by simp)
      · rintro ⟨c, hcmem, hcle⟩
        simp only [List.mem_cons, List.not_mem_nil, or_false] at hcmem
        rcases hcmem with rfl | rfl | rfl | rfl | rfl
        · exact absurd hcle hc1
        · exact absurd hcle hc2
        · exact absurd hcle hc3
        · exact absurd hcle hc4
        · exact absurd hcle hc5
    · rintro r hr
      exact hr.elim

/-- C2 witness: the amended characterization at the spec scenario of
longitudes 15 and 195 (raw difference 180, opposition, orb 0). -/
theorem C2_witness :
    (TransitCalculator.calculateAspect (testPos "sun" 15) (testPos "moon" 195) 6).isSome
      = true :=
  (C2_aspect_raw_difference (testPos "sun" 15) (testPos "moon" 195) 6
      (by norm_num [testPos]) (by norm_num [testPos]) (by norm_num [testPos])
      (by norm_num [testPos])).1.mpr
    ⟨180, by simp, by norm_num [testPos]⟩

/-! ## Claim C5 -/

/-- For any start offset, the nine dasha-year table entries visited by one
cycle through the lord order sum to the full 120 years. -/
theorem antarDasha_lords_year_sum (s : ℕ) :
    ((List.range 9).map fun i =>
      DashaCalculator.DASHA_YEARS
        (DashaCalculator.NAKSHATRA_LORDS.getD ((s + i) % 9) "")).sum = 120 := by
  have hcong : ((List.range 9).map fun i =>
        DashaCalculator.DASHA_YEARS
          (DashaCalculator.NAKSHATRA_LORDS.getD ((s + i) % 9) ""))
      = (List.range 9).map fun i =>
        DashaCalculator.DASHA_YEARS
          (DashaCalculator.NAKSHATRA_LORDS.getD ((s % 9 + i) % 9) "") := by
    apply List.map_congr_left
    intro i _
    have hmod : (s + i) % 9 = (s % 9 + i) % 9 := by omega
    rw [hmod]
  rw [hcong]
  have h9 : s % 9 < 9 := Nat.mod_lt _ (by norm_num)
  generalize s % 9 = m at h9 ⊢
  interval_cases m <;>
    · norm_num [List.range_succ, DashaCalculator.DASHA_YEARS,
        DashaCalculator.NAKSHATRA_LORDS]
      simp only [String.reduceEq, if_false, if_true]
      norm_num

/-- The nine antar-dasha sub-periods of any main period have years summing
exactly to the parent duration. -/
theorem antarDasha_years_sum (mainLord : String) (years : ℚ) :
    ((DashaCalculator.calculateAntarDasha mainLord years).map
      DashaCalculator.DashaPeriodV.years).sum = years := by
  have h120 := antarDasha_lords_year_sum (DashaCalculator.NAKSHATRA_LORDS.indexOf mainLord)
  simp only [DashaCalculator.calculateAntarDasha, List.map_map]
  have hfun : ((List.range 9).map
        (DashaCalculator.DashaPeriodV.years ∘ fun i =>
          DashaCalculator.DashaPeriodV.mk
            (DashaCalculator.NAKSHATRA_LORDS.getD
              ((DashaCalculator.NAKSHATRA_LORDS.indexOf mainLord + i) % 9) "")
            (years * DashaCalculator.DASHA_YEARS
              (DashaCalculator.NAKSHATRA_LORDS.getD
                ((DashaCalculator.NAKSHATRA_LORDS.indexOf mainLord + i) % 9) "") / 120)
            []))
      = (List.range 9).map fun i =>
        (years / 120) * DashaCalculator.DASHA_YEARS
          (DashaCalculator.NAKSHATRA_LORDS.getD
            ((DashaCalculator.NAKSHATRA_LORDS.indexOf mainLord + i) % 9) "") := by
    apply List.map_congr_left
    intro i _
    simp only [Function.comp_apply, DashaCalculator.DashaPeriodV.years]
    ring
  rw [hfun, List.sum_map_mul_left, h120]
  ring

/-- C5: every top-level dasha period has nine sub-periods whose years fields
sum exactly to the parent years (in particular to within 1e-9 years). -/
theorem C5_antardasha_sum (nakshatra : ℤ) (degrees : ℚ)
    (_h1 : 1 ≤ nakshatra) (_h2 : nakshatra ≤ 27) :
    ∀ p ∈ DashaCalculator.calculateDashaPeriods nakshatra degrees,
      p.subPeriods.length = 9 ∧
      (p.subPeriods.map DashaCalculator.DashaPeriodV.years).sum = p.years ∧
      |(p.subPeriods.map DashaCalculator.DashaPeriodV.years).sum - p.years|
        ≤ 1 / 1000000000 := by
  intro p hp
  simp only [DashaCalculator.calculateDashaPeriods, List.mem_map] at hp
  obtain ⟨i, hi, rfl⟩ := hp
  simp only [DashaCalculator.DashaPeriodV.subPeriods, DashaCalculator.DashaPeriodV.years]
  refine ⟨?_, antarDasha_years_sum _ _, ?_⟩
  · simp [DashaCalculator.calculateAntarDasha]
  · rw [antarDasha_years_sum]
    simp

/-- C5 witness: the sum property at the concrete birth input nakshatra 1,
five degrees traversed, checked on the first emitted period. -/
theorem C5_witness :
    ∃ p ∈ DashaCalculator.calculateDashaPeriods 1 5,
      p.subPeriods.length = 9 ∧
      (p.subPeriods.map DashaCalculator.DashaPeriodV.years).sum = p.years ∧
      |(p.subPeriods.map DashaCalculator.DashaPeriodV.years).sum - p.years|
        ≤ 1 / 1000000000 := by
  have hlen : 0 < (DashaCalculator.calculateDashaPeriods 1 5).length := by
    simp [DashaCalculator.calculateDashaPeriods]
  exact ⟨(DashaCalculator.calculateDashaPeriods 1 5).get ⟨0, hlen⟩,
    List.get_mem _ _ _,
    C5_antardasha_sum 1 5 (by norm_num) (by norm_num) _ (List.get_mem _ _ _)⟩

/-! ## Claim C6 -/

/-- C6 counterexample: for the Sun at natal longitude 0 projected to one day
before birth, the claimed formula with a signed fractional day count gives
359.0144 degrees, but the code rounds the absolute day count and returns
0.9856 degrees. -/
theorem C6_cex_rounded_absolute_days :
    (TransitCalculator.calculateTransitPosition (testPos "sun" 0) (-86400000) 0).map
        PlanetaryPosition.longitude = some 0.9856 ∧
    AstrologyCalculator.normalizeAngle
        ((testPos "sun" 0).longitude + 0.9856 * (((-86400000 : ℚ) - 0) / 86400000))
      = 359.0144 ∧
    (0.9856 : ℚ) ≠ 359.0144 := by
  refine ⟨?_, ?_, by norm_num⟩
  · simp only [TransitCalculator.calculateTransitPosition, TransitCalculator.DAILY_MOTION,
      TransitCalculator.daysBetween, testPos, jsRound, jsMod, jsTrunc, String.reduceEq,
      if_false, if_true, Option.map_some', Option.some.injEq]
    norm_num
  · have hx : (testPos "sun" 0).longitude
        + 0.9856 * (((-86400000 : ℚ) - 0) / 86400000) = -0.9856 := by
      norm_num [testPos]
    rw [hx, normalizeAngle_of_neg (by norm_num) (by norm_num)]
    norm_num

/-- C6 (amended): the projected longitude equals
normalize(birthLongitude + meanDailyMotion * round(|daysBetween|)) where the
day count is the absolute difference between the two instants rounded to
the nearest whole day, and the result is always normalized into the
half-open interval from 0 to 360. -/
theorem C6_transit_longitude_formula (pos : PlanetaryPosition)
    (transitDate birthDate motion : ℚ)
    (hm : TransitCalculator.DAILY_MOTION pos.planet = some motion) :
    ∃ p, TransitCalculator.calculateTransitPosition pos transitDate birthDate = some p ∧
      p.longitude = AstrologyCalculator.normalizeAngle
        (pos.longitude + motion * jsRound |((transitDate - birthDate) / 86400000)|) ∧
      0 ≤ p.longitude ∧ p.longitude < 360 := by
  unfold TransitCalculator.calculateTransitPosition
  rw [hm, Option.map_some']
  have hdays : TransitCalculator.daysBetween birthDate transitDate
      = jsRound |((transitDate - birthDate) / 86400000)| := by
    unfold TransitCalculator.daysBetween
    norm_num
  refine ⟨_, rfl, ?_, ?_, ?_⟩
  · show jsMod (jsMod (pos.longitude
        + motion * TransitCalculator.daysBetween birthDate transitDate) 360 + 360) 360 = _
    rw [hdays]
    rfl
  · exact (normalizeAngle_bounds
      (pos.longitude + motion * TransitCalculator.daysBetween birthDate transitDate)).1
  · exact (normalizeAngle_bounds
      (pos.longitude + motion * TransitCalculator.daysBetween birthDate transitDate)).2

/-- C6 witness: the Sun at natal longitude 0 projected exactly 100 days
after birth lands at 98.56 degrees (0.9856 degrees per day times 100). -/
theorem C6_witness :
    ∃ p, TransitCalculator.calculateTransitPosition (testPos "sun" 0) 8640000000 0
        = some p ∧ p.longitude = 98.56 := by
  obtain ⟨p, hp, hlon, -, -⟩ :=
    C6_transit_longitude_formula (testPos "sun" 0) 8640000000 0 0.9856
      (by norm_num [TransitCalculator.DAILY_MOTION, testPos])
  refine ⟨p, hp, ?_⟩
  rw [hlon]
  have harg : (testPos "sun" 0).longitude
      + 0.9856 * jsRound |(((8640000000 : ℚ) - 0) / 86400000)| = 98.56 := by
    unfold jsRound testPos
    norm_num
  rw [harg, normalizeAngle_eq_self (by norm_num) (by norm_num)]

/-! ## Claim C9 -/

/-- C9: a projected transit position keeps the planet, latitude, speed and
isRetrograde fields of the birth position unchanged. -/
theorem C9_transit_preserves_identity (pos : PlanetaryPosition)
    (transitDate birthDate : ℚ) (p : PlanetaryPosition)
    (h : TransitCalculator.calculateTransitPosition pos transitDate birthDate = some p) :
    p.planet = pos.planet ∧ p.latitude = pos.latitude ∧ p.speed = pos.speed ∧
      p.isRetrograde = pos.isRetrograde := by
  unfold TransitCalculator.calculateTransitPosition at h
  cases hm : TransitCalculator.DAILY_MOTION pos.planet with
  | none =>
    rw [hm] at h
    exact Option.noConfusion h
  | some motion =>
    rw [hm, Option.map_some', Option.some.injEq] at h
    subst h
    exact ⟨rfl, rfl, rfl, rfl⟩

/-- C9 witness: the preservation property at a concrete Sun position. -/
theorem C9_witness :
    ∃ p, TransitCalculator.calculateTransitPosition (testPos "sun" 0) 0 0 = some p ∧
      p.planet = (testPos "sun" 0).planet ∧ p.latitude = (testPos "sun" 0).latitude ∧
      p.speed = (testPos "sun" 0).speed ∧
      p.isRetrograde = (testPos "sun" 0).isRetrograde := by
  have hs : (TransitCalculator.calculateTransitPosition (testPos "sun" 0) 0 0).isSome
      = true := by
    simp [TransitCalculator.calculateTransitPosition, TransitCalculator.DAILY_MOTION, testPos]
  obtain ⟨p, hp⟩ := Option.isSome_iff_exists.mp hs
  obtain ⟨h1, h2, h3, h4⟩ := C9_transit_preserves_identity _ _ _ _ hp
  exact ⟨p, hp, h1, h2, h3, h4⟩

/-! ## Claim C3 -/

/-- C3 counterexample: in a chart with natal ascendant at 10 degrees and the
Sun at 100 degrees, projecting to the birth instant leaves the Sun at
longitude 100, whose whole-sign house relative to the natal ascendant is 4;
the code instead assigns house 1, because it measures the house from the
planet's own natal longitude.  (The ascendant entry itself is returned
unchanged.) -/
theorem C3_cex_house_from_natal_longitude :
    ∃ p, TransitCalculator.calculateAllTransits chartC3 0 =
        [("ascendant", some (testPos "ascendant" 10)), ("sun", some p)] ∧
      p.longitude = 100 ∧
      p.house = 1 ∧
      (AstrologyCalculator.calculateSign 100 -
          AstrologyCalculator.calculateSign (testPos "ascendant" 10).longitude) % 12 + 1
        = 4 ∧
      p.house ≠ (AstrologyCalculator.calculateSign 100 -
          AstrologyCalculator.calculateSign (testPos "ascendant" 10).longitude) % 12 + 1
      := by
  have hsign : (AstrologyCalculator.calculateSign 100 -
      AstrologyCalculator.calculateSign (testPos "ascendant" 10).longitude) % 12 + 1
        = 4 := by
    unfold AstrologyCalculator.calculateSign AstrologyCalculator.SIGN_SPAN testPos
    rw [normalizeAngle_eq_self (by norm_num : (0 : ℚ) ≤ 100) (by norm_num),
      normalizeAngle_eq_self (by norm_num : (0 : ℚ) ≤ 10) (by norm_num)]
    norm_num
  have hhouse : AstrologyCalculator.calculateHouse 100 100 = 1 := by
    unfold AstrologyCalculator.calculateHouse AstrologyCalculator.SIGN_SPAN
    rw [show (100 : ℚ) - 100 = 0 by norm_num,
      normalizeAngle_eq_self (by norm_num : (0 : ℚ) ≤ 0) (by norm_num)]
    norm_num
  have hval : TransitCalculator.calculateTransitPosition (testPos "sun" 100) 0 0
      = some { testPos "sun" 100 with
          longitude := 100
          sign := AstrologyCalculator.calculateSign 100
          nakshatra := (AstrologyCalculator.calculateNakshatra 100).nakshatra
          nakshatraPada := (AstrologyCalculator.calculateNakshatra 100).pada
          degree := (AstrologyCalculator.decimalToDMS (jsMod 100 30)).degrees
          minutes := (AstrologyCalculator.decimalToDMS (jsMod 100 30)).minutes
          house := AstrologyCalculator.calculateHouse 100 100 } := by
    unfold TransitCalculator.calculateTransitPosition TransitCalculator.DAILY_MOTION
      TransitCalculator.daysBetween
    simp only [testPos, String.reduceEq, if_false, if_true, Option.map_some',
      Option.some.injEq]
    have harg : (100 : ℚ) + 0.9856 * jsRound |(((0 : ℚ) - 0) / (24 * 60 * 60 * 1000))|
        = 100 := by
      unfold jsRound
      norm_num
    rw [harg,
      show jsMod (jsMod (100 : ℚ) 360 + 360) 360 = 100 from
        normalizeAngle_eq_self (by norm_num : (0 : ℚ) ≤ 100) (by norm_num)]
  refine ⟨{ testPos "sun" 100 with
      longitude := 100
      sign := AstrologyCalculator.calculateSign 100
      nakshatra := (AstrologyCalculator.calculateNakshatra 100).nakshatra
      nakshatraPada := (AstrologyCalculator.calculateNakshatra 100).pada
      degree := (AstrologyCalculator.decimalToDMS (jsMod 100 30)).degrees
      minutes := (AstrologyCalculator.decimalToDMS (jsMod 100 30)).minutes
      house := AstrologyCalculator.calculateHouse 100 100 }, ?_, rfl, hhouse, hsign, ?_⟩
  · unfold TransitCalculator.calculateAllTransits chartC3
    simp only [List.map_cons, List.map_nil, ne_eq, String.reduceEq, not_true_eq_false,
      not_false_eq_true, if_true, if_false, ite_true, ite_false]
    rw [hval]
  · show AstrologyCalculator.calculateHouse 100 100 ≠ _
    rw [hhouse, hsign]
    norm_num

/-- C3 (amended): the projected house is computed from the planet's own
natal longitude, not from the natal ascendant — it equals
calculateHouse(newLongitude, birthPosition.longitude) and always lies in
1..12 — while the ascendant entry of the chart is passed through the
transit map unchanged. -/
theorem C3_house_reference_and_fixed_ascendant :
    (∀ (pos p : PlanetaryPosition) (td bd : ℚ),
        TransitCalculator.calculateTransitPosition pos td bd = some p →
        p.house = AstrologyCalculator.calculateHouse p.longitude pos.longitude ∧
        1 ≤ p.house ∧ p.house ≤ 12) ∧
    (∀ (chart : BirthChart) (td : ℚ) (e : String × PlanetaryPosition),
        e ∈ chart.planets → e.1 = "ascendant" →
        (e.1, some e.2) ∈ TransitCalculator.calculateAllTransits chart td) := by
  constructor
  · intro pos p td bd h
    unfold TransitCalculator.calculateTransitPosition at h
    cases hm : TransitCalculator.DAILY_MOTION pos.planet with
    | none =>
      rw [hm] at h
      exact Option.noConfusion h
    | some motion =>
      rw [hm, Option.map_some', Option.some.injEq] at h
      subst h
      exact ⟨rfl, (calculateHouse_range _ _).1, (calculateHouse_range _ _).2⟩
  · intro chart td e he hkey
    unfold TransitCalculator.calculateAllTransits
    refine List.mem_map.mpr ⟨e, he, ?_⟩
    rw [if_neg]
    simp [hkey]

/-- C3 witness: the amended statement at the concrete chart with ascendant
10 degrees and Sun 100 degrees, projected to the birth instant. -/
theorem C3_witness :
    ∃ p, TransitCalculator.calculateTransitPosition (testPos "sun" 100) 0 0 = some p ∧
      p.house = AstrologyCalculator.calculateHouse p.longitude 100 ∧
      ("ascendant", some (testPos "ascendant" 10)) ∈
        TransitCalculator.calculateAllTransits chartC3 0 := by
  have hs : (TransitCalculator.calculateTransitPosition (testPos "sun" 100) 0 0).isSome
      = true := by
    simp [TransitCalculator.calculateTransitPosition, TransitCalculator.DAILY_MOTION, testPos]
  obtain ⟨p, hp⟩ := Option.isSome_iff_exists.mp hs
  refine ⟨p, hp, ?_, ?_⟩
  · exact (C3_house_reference_and_fixed_ascendant.1 (testPos "sun" 100) p 0 0 hp).1
  · exact C3_house_reference_and_fixed_ascendant.2 chartC3 0
      ("ascendant", testPos "ascendant" 10) (by simp [chartC3]) rfl

/-! ## Claim C8 -/

/-- C8 counterexample: at Julian day 2451545 and latitude 80 degrees —
inside the polar range the claim is about — the Placidus computation
reports no distinguished UndefinedGeometry condition and returns no cusp
values at all: the call aborts on the ReferenceError raised inside
calculateAscendant (undeclared identifiers cosObl, tanLat, sinObl) before
any cusp is produced, and the outcome is identical to the outcome at the
equatorial latitude 0, so nothing about it distinguishes the polar case. -/
theorem C8_cex_no_distinguished_condition :
    (66.5 : ℝ) < |(80 : ℝ)| ∧ |(0 : ℝ)| < 66.5 ∧
    HouseCalculator.calculatePlacidusHouses 2451545 80 0 = none ∧
    HouseCalculator.calculatePlacidusHouses 2451545 80 0
      = HouseCalculator.calculatePlacidusHouses 2451545 0 0 :=
  ⟨by norm_num, by norm_num, rfl, rfl⟩

/-- C8 (amended): for every input — polar or not — the Placidus computation
never returns a cusp array and never reports a distinguished polar-geometry
condition: calculateAscendant reads the undeclared identifiers cosObl,
tanLat and sinObl, so every call of calculatePlacidusHouses aborts with the
resulting ReferenceError (as TypeScript the file does not even compile)
before any cusp, NaN or otherwise, is returned; the failure is
unconditional and carries no polar-specific information. -/
theorem C8_placidus_always_aborts (jd latitude longitude : ℝ) :
    HouseCalculator.calculateAscendant (HouseCalculator.calculateRAMC jd longitude)
        (AstronomicalCalculator.calculateObliquityOfEcliptic jd) latitude = none ∧
    HouseCalculator.calculatePlacidusHouses jd latitude longitude = none :=
  ⟨rfl, rfl⟩

/-- C10 witness: the general theorem applied to the Sun (exalted in Aries,
sign 1, debilitated in Libra, sign 7). -/
theorem C10_witness :
    ¬(AstrologyCalculator.isExalted "sun" 1 ∧ AstrologyCalculator.isDebilitated "sun" 1) ∧
    ((7 : ℤ) + 12 - 1) % 12 = 6 :=
  ⟨(C10_dignity_tables "sun" 1 1 7).1,
    (C10_dignity_tables "sun" 1 1 7).2
      (by norm_num [AstrologyCalculator.exaltations])
      (by norm_num [AstrologyCalculator.debilitations])⟩

end Vediq
